import Mathlib

/-!
Shallow embedding of the generation-workflow store in
`src/frontend/src/stores/generator.ts` of the RedInk repository, together
with theorems settling the frozen claims about it.

Modelling conventions:
* JavaScript numbers used as page/image indices and splice positions are
  modelled as `Int` (they are always integral in this code); counters and
  lengths as `Nat`.
* In-place mutation of the Pinia store becomes explicit state passing:
  each action is a function `... → GeneratorState → GeneratorState`.
* `Array.prototype.find` followed by in-place mutation of the found element
  is modelled by updating the first list element matching the predicate.
* `Array.prototype.splice` start-argument clamping is modelled by
  `spliceStart`.
* JavaScript truthiness tests on `string` / `string | null` values
  (`if (url)`, `!this.recordId`, `saved.topic || ...`) are modelled
  explicitly: the empty string and `null`/`none` are falsy.
* `localStorage` is modelled as the single slot under the fixed key
  `generator-state`: an `Option String` (`none` = no entry).
* `Date.now()` is an explicit `now : Nat` parameter.
* `JSON.parse` is an abstract parameter `parse : String → Option PartialState`;
  `none` models a parse that throws (invalid JSON).
-/

namespace RedInk

/-- Workflow stage: input, outline, generating, result. -/
inductive Stage
  | input
  | outline
  | generating
  | result
deriving DecidableEq, Repr

/-- Four-valued status used by `progress.status`, `content.status` and
`outlineStatus` in the source. -/
inductive GenStatus
  | idle
  | generating
  | done
  | error
deriving DecidableEq, Repr

/-- Per-image status from the `GeneratedImage` interface. -/
inductive ImageStatus
  | generating
  | done
  | error
  | retrying
deriving DecidableEq, Repr

/-- Page type union from the store actions. -/
inductive PageType
  | cover
  | content
  | summary
deriving DecidableEq, Repr

/-- The `Page` record `\x7b index, type, content \x7d` as constructed and
consumed by the store actions. -/
structure Page where
  index : Int
  type : PageType
  content : String
deriving DecidableEq, Repr

/-- The `outline` field: raw text plus parsed pages. -/
structure Outline where
  raw : String
  pages : List Page
deriving DecidableEq, Repr

/-- The `progress` field. -/
structure Progress where
  current : Nat
  total : Nat
  status : GenStatus
deriving DecidableEq, Repr

/-- The `GeneratedImage` interface; optional fields are `Option`. -/
structure GeneratedImage where
  index : Int
  url : String
  status : ImageStatus
  error : Option String := none
  retryable : Option Bool := none
  progress : Option Nat := none
deriving DecidableEq, Repr

/-- The `GeneratedContent` interface. -/
structure GeneratedContent where
  titles : List String
  copywriting : String
  tags : List String
  status : GenStatus
  error : Option String := none
deriving DecidableEq, Repr

/-- The whole `GeneratorState` aggregate. `userImages` holds opaque file
handles (File objects are never inspected by the store). -/
structure GeneratorState where
  stage : Stage
  topic : String
  outline : Outline
  progress : Progress
  images : List GeneratedImage
  taskId : Option String
  recordId : Option String
  userImages : List String
  content : GeneratedContent
  outlineStatus : GenStatus
  lastSavedAt : Option String
deriving DecidableEq, Repr

/-- The fixed page-separator token used by `syncRawFromPages`. -/
def pageSeparator : String := "\n\n<page>\n\n"

/-- `Array.prototype.join` with a fixed separator: empty list gives the
empty string, otherwise the elements interleaved with the separator. -/
def joinContents : List String → String
  | [] => ""
  | [s] => s
  | s :: rest => s ++ pageSeparator ++ joinContents rest

/-- `pages.map(page => page.content).join(separator)`. -/
def joinPages (pages : List Page) : String :=
  joinContents (pages.map Page.content)

/-- Action `syncRawFromPages`: re-derives `outline.raw` from the pages. -/
def syncRawFromPages (st : GeneratorState) : GeneratorState :=
  { st with outline := { st.outline with raw := joinPages st.outline.pages } }

/-- `pages.forEach((page, idx) => page.index = idx)` starting at position `n`. -/
def renumberFrom (n : Nat) : List Page → List Page
  | [] => []
  | p :: ps => { p with index := (n : Int) } :: renumberFrom (n + 1) ps

/-- Full renumbering pass: `index := position` for every page. -/
def renumber (pages : List Page) : List Page :=
  renumberFrom 0 pages

/-- Renumbering that stops (throws) at position `q`: positions before `q`
get `index := position`, the rest are left untouched. Models a `forEach`
renumbering pass that crashes on an `undefined` element at position `q`. -/
def renumberPrefixFrom (n q : Nat) : List Page → List Page
  | [] => []
  | p :: ps =>
      (if n < q then { p with index := (n : Int) } else p) ::
        renumberPrefixFrom (n + 1) q ps

/-- JavaScript `Array.prototype.splice` start clamping: negative values
count from the end (clamped to 0), large values clamp to the length. -/
def spliceStart (len : Nat) (start : Int) : Nat :=
  if start < 0 then ((len : Int) + start).toNat else min start.toNat len

/-- Action `setOutline(raw, pages)`: wholesale outline replacement, stage
and outline status advance unconditionally. -/
def setOutline (raw : String) (pages : List Page) (st : GeneratorState) :
    GeneratorState :=
  { st with
      outline := { raw := raw, pages := pages }
      stage := Stage.outline
      outlineStatus := GenStatus.done }

/-- Mutation through `pages.find(p => p.index === index)`: set the content
of the first page whose `index` field equals `index`. -/
def updateFirstPage (index : Int) (content : String) : List Page → List Page
  | [] => []
  | p :: ps =>
      if p.index == index then { p with content := content } :: ps
      else p :: updateFirstPage index content ps

/-- Action `updatePage(index, content)`: no-op when no page matches,
otherwise update the found page and re-derive `raw`. -/
def updatePage (index : Int) (content : String) (st : GeneratorState) :
    GeneratorState :=
  match st.outline.pages.find? (fun p => p.index == index) with
  | some _ =>
      syncRawFromPages
        { st with
            outline :=
              { st.outline with
                  pages := updateFirstPage index content st.outline.pages } }
  | none => st

/-- Action `deletePage(index)`: filter out the matching pages, renumber,
re-derive `raw`. -/
def deletePage (index : Int) (st : GeneratorState) : GeneratorState :=
  syncRawFromPages
    { st with
        outline :=
          { st.outline with
              pages :=
                renumber (st.outline.pages.filter (fun p => p.index != index)) } }

/-- Action `addPage(type, content)`: push a new page with
`index = pages.length`, re-derive `raw` (no renumbering pass). -/
def addPage (ptype : PageType) (content : String) (st : GeneratorState) :
    GeneratorState :=
  let newPage : Page :=
    { index := (st.outline.pages.length : Int), type := ptype, content := content }
  syncRawFromPages
    { st with
        outline := { st.outline with pages := st.outline.pages ++ [newPage] } }

/-- Action `insertPage(afterIndex, type, content)`: splice the new page in
at position `afterIndex + 1` (with JavaScript clamping), renumber,
re-derive `raw`. -/
def insertPage (afterIndex : Int) (ptype : PageType) (content : String)
    (st : GeneratorState) : GeneratorState :=
  let newPage : Page := { index := afterIndex + 1, type := ptype, content := content }
  let s := spliceStart st.outline.pages.length (afterIndex + 1)
  syncRawFromPages
    { st with
        outline :=
          { st.outline with
              pages :=
                renumber
                  (st.outline.pages.take s ++ [newPage] ++ st.outline.pages.drop s) } }

/-- Outcome of `movePage`. `ok` is the normal return. `threw` models the
`TypeError` raised when `fromIndex` selects no element: `splice(fromIndex, 1)`
removes nothing, `movedPage` is `undefined`, `splice(toIndex, 0, undefined)`
inserts it at clamped position `q`, and the renumbering `forEach` crashes
when it reaches the `undefined` at position `q` — after having renumbered
the shared page objects at positions below `q`. The carried state is the
store state observed after the exception (`this.outline.pages` was never
reassigned, but its elements below `q` were mutated in place). -/
inductive MoveOutcome
  | ok (st : GeneratorState)
  | threw (st : GeneratorState)
deriving DecidableEq, Repr

/-- The store state carried by a `MoveOutcome`. -/
def MoveOutcome.state : MoveOutcome → GeneratorState
  | ok st => st
  | threw st => st

/-- Action `movePage(fromIndex, toIndex)`: copy the pages, splice the moved
page out and back in (positions clamped as JavaScript does), renumber,
reassign, re-derive `raw`. -/
def movePage (fromIndex toIndex : Int) (st : GeneratorState) : MoveOutcome :=
  let pages := st.outline.pages
  let s := spliceStart pages.length fromIndex
  if h : s < pages.length then
    let moved := pages.get ⟨s, h⟩
    let rest := pages.take s ++ pages.drop (s + 1)
    let q := spliceStart rest.length toIndex
    MoveOutcome.ok
      (syncRawFromPages
        { st with
            outline :=
              { st.outline with
                  pages := renumber (rest.take q ++ [moved] ++ rest.drop q) } })
  else
    let q := spliceStart pages.length toIndex
    MoveOutcome.threw
      { st with
          outline :=
            { st.outline with pages := renumberPrefixFrom 0 q pages } }

/-- Action `startGeneration()`: enter the generating stage, reset progress,
one fresh generating image per current page. -/
def startGeneration (st : GeneratorState) : GeneratorState :=
  { st with
      stage := Stage.generating
      progress :=
        { current := 0, total := st.outline.pages.length, status := GenStatus.generating }
      images :=
        st.outline.pages.map (fun p =>
          { index := p.index, url := "", status := ImageStatus.generating }) }

/-- The status union accepted by `updateProgress`. -/
inductive UpdateStatus
  | generating
  | done
  | error
deriving DecidableEq, Repr

/-- Inclusion of the `updateProgress` status union into `ImageStatus`. -/
def UpdateStatus.toImageStatus : UpdateStatus → ImageStatus
  | generating => ImageStatus.generating
  | done => ImageStatus.done
  | error => ImageStatus.error

/-- JavaScript `v || d` for an optional string `v`: the empty string and
`undefined` fall through to `d`. -/
def jsOrStr (v : Option String) (d : String) : String :=
  match v with
  | some s => if s == "" then d else s
  | none => d

/-- Mutation through `images.find(img => img.index === index)`: apply `f`
to the first image whose `index` field equals `index`. -/
def updateFirstImage (f : GeneratedImage → GeneratedImage) (index : Int) :
    List GeneratedImage → List GeneratedImage
  | [] => []
  | img :: imgs =>
      if img.index == index then f img :: imgs
      else img :: updateFirstImage f index imgs

/-- Action `updateProgress(index, status, url?, error?)`: set fields on the
found image (if any); `if (url)` and `if (error)` are truthiness tests;
the `progress.current` increment fires on every `done` call, found or not. -/
def updateProgress (index : Int) (status : UpdateStatus)
    (url : Option String) (error : Option String) (st : GeneratorState) :
    GeneratorState :=
  let st' :=
    { st with
        images :=
          updateFirstImage
            (fun img =>
              { img with
                  status := status.toImageStatus
                  url := jsOrStr url img.url
                  error :=
                    match error with
                    | some e => if e == "" then img.error else some e
                    | none => img.error })
            index st.images }
  if status == UpdateStatus.done then
    { st' with
        progress := { st'.progress with current := st'.progress.current + 1 } }
  else st'

/-- Action `updateImage(index, newUrl)`: on the found image (if any), set a
cache-busted url from the current time, status `done`, delete `error`. -/
def updateImage (now : Nat) (index : Int) (newUrl : String)
    (st : GeneratorState) : GeneratorState :=
  { st with
      images :=
        updateFirstImage
          (fun img =>
            { img with
                url := newUrl ++ "?t=" ++ toString now
                status := ImageStatus.done
                error := none })
          index st.images }

/-- Action `setImageRetrying(index)`: set the found image (if any) to
`retrying`. -/
def setImageRetrying (index : Int) (st : GeneratorState) : GeneratorState :=
  { st with
      images :=
        updateFirstImage (fun img => { img with status := ImageStatus.retrying })
          index st.images }

/-- The documented zero state: the value every field is reset to, and the
default used when no local snapshot is available. -/
def zeroState : GeneratorState :=
  { stage := Stage.input
    topic := ""
    outline := { raw := "", pages := [] }
    progress := { current := 0, total := 0, status := GenStatus.idle }
    images := []
    taskId := none
    recordId := none
    userImages := []
    content := { titles := [], copywriting := "", tags := [], status := GenStatus.idle }
    outlineStatus := GenStatus.idle
    lastSavedAt := none }

/-- Action `reset()`: field-by-field reassignment to the initial values,
then `localStorage.removeItem(STORAGE_KEY)`. The second component is the
local snapshot slot under the key `generator-state`. -/
def reset (st : GeneratorState) (slot : Option String) :
    GeneratorState × Option String :=
  let _ := slot
  ({ st with
      stage := Stage.input
      topic := ""
      outline := { raw := "", pages := [] }
      progress := { current := 0, total := 0, status := GenStatus.idle }
      images := []
      taskId := none
      recordId := none
      userImages := []
      content := { titles := [], copywriting := "", tags := [], status := GenStatus.idle }
      outlineStatus := GenStatus.idle
      lastSavedAt := none },
   none)

/-- JavaScript truthiness of a `string | null` value: `null` and the empty
string are falsy. -/
def strTruthy : Option String → Bool
  | none => false
  | some s => s != ""

/-- Action `hasUnsavedChanges()`: pure query, reads `recordId`, `topic`,
`outline.pages`, `images` and `lastSavedAt` through JavaScript truthiness. -/
def hasUnsavedChanges (st : GeneratorState) : Bool :=
  if !strTruthy st.recordId then
    st.topic != "" || decide (st.outline.pages.length > 0) ||
      decide (st.images.length > 0)
  else if !strTruthy st.lastSavedAt then true
  else false

/-- The `Partial<GeneratorState>` shape returned by `loadState`: each
persisted key may be absent. Keys whose value is itself nullable are
`Option (Option String)`. (`userImages` is never persisted.) -/
structure PartialState where
  stage : Option Stage := none
  topic : Option String := none
  outline : Option Outline := none
  progress : Option Progress := none
  images : Option (List GeneratedImage) := none
  taskId : Option (Option String) := none
  recordId : Option (Option String) := none
  content : Option GeneratedContent := none
  outlineStatus : Option GenStatus := none
  lastSavedAt : Option (Option String) := none
deriving DecidableEq, Repr

/-- `loadState()`: read the slot; an absent or empty value fails the
`if (saved)` truthiness test, and a `JSON.parse` throw (`parse = none`) is
caught; both fall through to the empty partial state. The function is
total: no exception escapes. -/
def loadState (parse : String → Option PartialState)
    (stored : Option String) : PartialState :=
  match stored with
  | none => {}
  | some s =>
      if s == "" then {}
      else
        match parse s with
        | some p => p
        | none => {}

/-- JavaScript `v || null` for a persisted nullable string field: an absent
key, a stored `null` and a stored empty string all yield `null`. -/
def jsOrNull (v : Option (Option String)) : Option String :=
  match v with
  | some (some s) => if s == "" then none else some s
  | _ => none

/-- The `state()` initializer: merge the loaded partial state into the
defaults with `||`. Enum, object and array values are truthy whenever
present, so those fields use the saved value when the key exists; string
and nullable-string fields go through truthiness. -/
def initState (parse : String → Option PartialState)
    (stored : Option String) : GeneratorState :=
  let saved := loadState parse stored
  { stage := saved.stage.getD Stage.input
    topic := jsOrStr saved.topic ""
    outline := saved.outline.getD { raw := "", pages := [] }
    progress := saved.progress.getD { current := 0, total := 0, status := GenStatus.idle }
    images := saved.images.getD []
    taskId := jsOrNull saved.taskId
    recordId := jsOrNull saved.recordId
    userImages := []
    content :=
      saved.content.getD
        { titles := [], copywriting := "", tags := [], status := GenStatus.idle }
    outlineStatus := saved.outlineStatus.getD GenStatus.idle
    lastSavedAt := jsOrNull saved.lastSavedAt }

/-- The four structural outline operations quantified over in the claims. -/
inductive Op
  | add (ptype : PageType) (content : String)
  | insert (afterIndex : Int) (ptype : PageType) (content : String)
  | delete (index : Int)
  | move (fromIndex toIndex : Int)
deriving DecidableEq, Repr

/-- Apply one structural operation. A throwing `movePage` leaves the store
in the state observed after the exception. -/
def applyOp (op : Op) (st : GeneratorState) : GeneratorState :=
  match op with
  | Op.add ptype content => addPage ptype content st
  | Op.insert afterIndex ptype content => insertPage afterIndex ptype content st
  | Op.delete index => deletePage index st
  | Op.move fromIndex toIndex => (movePage fromIndex toIndex st).state

/-- Apply a sequence of structural operations in order. -/
def applyOps (ops : List Op) (st : GeneratorState) : GeneratorState :=
  ops.foldl (fun s op => applyOp op s) st

/-- Decidable check that the pages from position `n` on carry
`index = position`. -/
def indexedFrom (n : Nat) : List Page → Bool
  | [] => true
  | p :: ps => p.index == (n : Int) && indexedFrom (n + 1) ps

/-- The renumbering invariant: every page carries its 0-based position,
`pages[i].index === i`. -/
def pagesIndexed (l : List Page) : Prop :=
  ∀ i : Fin l.length, (l.get i).index = ((i : Nat) : Int)

/-- The raw-projection invariant: `outline.raw` equals the page contents
joined by the fixed separator. -/
def rawInv (st : GeneratorState) : Prop :=
  st.outline.raw = joinPages st.outline.pages

/-- Concrete state for exercising `updateProgress`: one page, one image in
status `generating`, zero progress. -/
def c1Start : GeneratorState :=
  { zeroState with
      stage := Stage.generating
      progress := { current := 0, total := 1, status := GenStatus.generating }
      images := [{ index := 0, url := "", status := ImageStatus.generating }] }

/-- Concrete two-page outline state satisfying the renumbering invariant. -/
def c2Start : GeneratorState :=
  { zeroState with
      outline :=
        { raw := "A\n\n<page>\n\nB"
          pages := [{ index := 0, type := PageType.cover, content := "A" },
                    { index := 1, type := PageType.content, content := "B" }] } }

/-- Concrete state already in the outline stage with a done outline. -/
def c4State : GeneratorState :=
  { zeroState with
      stage := Stage.outline
      outlineStatus := GenStatus.done
      outline :=
        { raw := "A"
          pages := [{ index := 0, type := PageType.cover, content := "A" }] } }

/-- Concrete state whose `recordId` is the empty string: set (not null) but
falsy to JavaScript. -/
def c9State : GeneratorState :=
  { zeroState with recordId := some "" }

/-- Modelled from the spec sentence for the amended claim C9: unsaved
changes exist when `recordId` is null or empty and any of topic, pages or
images is non-empty, or when `recordId` is a non-empty string and
`lastSavedAt` is null or empty. -/
def unsavedChangesSpec (st : GeneratorState) : Prop :=
  ((st.recordId = none ∨ st.recordId = some "") ∧
      (st.topic ≠ "" ∨ st.outline.pages ≠ [] ∨ st.images ≠ [])) ∨
    ((∃ s, st.recordId = some s ∧ s ≠ "") ∧
      (st.lastSavedAt = none ∨ st.lastSavedAt = some ""))

/-- Concrete state with two images for exercising `setImageRetrying`. -/
def c10State : GeneratorState :=
  { zeroState with
      stage := Stage.generating
      images := [{ index := 0, url := "u0", status := ImageStatus.done },
                 { index := 1, url := "u1", status := ImageStatus.error,
                   error := some "boom", retryable := some true }] }

/-! Helper lemmas. -/

@[simp]
theorem syncRawFromPages_pages (st : GeneratorState) :
    (syncRawFromPages st).outline.pages = st.outline.pages := rfl

/-- A full renumbering pass establishes the position invariant. -/
theorem indexedFrom_renumberFrom (l : List Page) (n : Nat) :
    indexedFrom n (renumberFrom n l) = true := by
  induction l generalizing n with
  | nil => rfl
  | cons p ps ih => simp [renumberFrom, indexedFrom, ih]

/-- Appending a page carrying the next position preserves the invariant. -/
theorem indexedFrom_append_singleton (l : List Page) (n : Nat) (p : Page)
    (h : indexedFrom n l = true)
    (hp : p.index = ((n + l.length : Nat) : Int)) :
    indexedFrom n (l ++ [p]) = true := by
  induction l generalizing n with
  | nil => simp [indexedFrom, hp]
  | cons q qs ih =>
      simp only [indexedFrom, Bool.and_eq_true] at h
      simp only [List.cons_append, indexedFrom, Bool.and_eq_true]
      refine ⟨h.1, ih (n + 1) h.2 ?_⟩
      rw [hp]
      congr 1
      simp [List.length_cons]
      omega


/-- A renumbering pass that crashes at position `q` preserves the position
invariant: assignments below `q` are the identity there, the rest is
untouched. -/
theorem indexedFrom_renumberPrefixFrom (l : List Page) (n q : Nat)
    (h : indexedFrom n l = true) :
    indexedFrom n (renumberPrefixFrom n q l) = true := by
  induction l generalizing n with
  | nil => rfl
  | cons p ps ih =>
      simp only [indexedFrom, Bool.and_eq_true] at h
      by_cases hq : n < q
      · simp [renumberPrefixFrom, hq, indexedFrom, ih (n + 1) h.2]
      · simp [renumberPrefixFrom, hq, indexedFrom, h.1, ih (n + 1) h.2]

/-- The decidable position check versus its pointwise reading. -/
theorem indexedFrom_iff (n : Nat) (l : List Page) :
    indexedFrom n l = true ↔
      ∀ i : Fin l.length, (l.get i).index = ((n + (i : Nat) : Nat) : Int) := by
  induction l generalizing n with
  | nil =>
      constructor
      · intro _ i
        exact i.elim0
      · intro _
        rfl
  | cons p ps ih =>
      simp only [indexedFrom, Bool.and_eq_true, beq_iff_eq, ih (n + 1)]
      constructor
      · rintro ⟨h1, h2⟩ i
        match i with
        | ⟨0, _⟩ => simpa using h1
        | ⟨j + 1, hj⟩ =>
            have hh := h2 ⟨j, Nat.lt_of_succ_lt_succ hj⟩
            simp only [List.get] at hh ⊢
            rw [hh]
            congr 1
            omega
      · intro h
        refine ⟨by simpa using h ⟨0, Nat.succ_pos _⟩, fun i => ?_⟩
        have hh := h ⟨(i : Nat) + 1, Nat.succ_lt_succ i.isLt⟩
        simp only [List.get] at hh ⊢
        rw [hh]
        congr 1
        omega

/-- The renumbering invariant as a decidable check. -/
theorem pagesIndexed_iff (l : List Page) :
    pagesIndexed l ↔ indexedFrom 0 l = true := by
  rw [indexedFrom_iff]
  constructor
  · intro h i
    simpa using h i
  · intro h i
    simpa using h i

/-- Each structural operation preserves the position invariant. -/
theorem indexedFrom_applyOp (op : Op) (st : GeneratorState)
    (h : indexedFrom 0 st.outline.pages = true) :
    indexedFrom 0 (applyOp op st).outline.pages = true := by
  cases op with
  | add ptype content =>
      show indexedFrom 0
        (st.outline.pages ++
          [{ index := (st.outline.pages.length : Int), type := ptype,
             content := content }]) = true
      exact indexedFrom_append_singleton _ 0 _ h (by simp)
  | insert afterIndex ptype content =>
      exact indexedFrom_renumberFrom _ 0
  | delete index =>
      exact indexedFrom_renumberFrom _ 0
  | move fromIndex toIndex =>
      dsimp only [applyOp, movePage]
      split
      · exact indexedFrom_renumberFrom _ 0
      · exact indexedFrom_renumberPrefixFrom _ 0 _ h

/-- A whole sequence of structural operations preserves the position
invariant. -/
theorem indexedFrom_applyOps (ops : List Op) (st : GeneratorState)
    (h : indexedFrom 0 st.outline.pages = true) :
    indexedFrom 0 (applyOps ops st).outline.pages = true := by
  induction ops generalizing st with
  | nil => exact h
  | cons op rest ih => exact ih (applyOp op st) (indexedFrom_applyOp op st h)

/-- Contents are untouched by a crashed renumbering pass. -/
theorem map_content_renumberPrefixFrom (l : List Page) (n q : Nat) :
    (renumberPrefixFrom n q l).map Page.content = l.map Page.content := by
  induction l generalizing n with
  | nil => rfl
  | cons p ps ih =>
      by_cases hq : n < q <;> simp [renumberPrefixFrom, hq, ih]

/-- The raw projection is unchanged by a crashed renumbering pass. -/
theorem joinPages_renumberPrefixFrom (l : List Page) (n q : Nat) :
    joinPages (renumberPrefixFrom n q l) = joinPages l := by
  unfold joinPages
  rw [map_content_renumberPrefixFrom]

/-! Claim theorems. -/

/-- Claim C1 (code bug): the source increments `progress.current` on every
`done` call with no transition guard, so a repeated `done` update for the
same index double-counts. Starting from a single `generating` image with
`current = 0`, the first `done` call yields `current = 1` and leaves the
image in status `done`; the second `done` call for the same index yields
`current = 2`, where the claim (and the spec) require 1 in total. -/
theorem claim_c1_double_increment :
    (updateProgress 0 UpdateStatus.done none none c1Start).progress.current = 1 ∧
    ((updateProgress 0 UpdateStatus.done none none c1Start).images.find?
        (fun img => img.index == 0)).map GeneratedImage.status =
      some ImageStatus.done ∧
    (updateProgress 0 UpdateStatus.done none none
        (updateProgress 0 UpdateStatus.done none none c1Start)).progress.current
      = 2 := by
  refine ⟨rfl, rfl, rfl⟩

/-- Claim C2: from any state whose pages each carry their 0-based position,
every sequence of addPage, insertPage, deletePage and movePage operations
(with any integer arguments, including out-of-range ones) re-establishes
`pages[i].index = i` after each prefix of the sequence. -/
theorem claim_c2_renumbering_invariant (st : GeneratorState)
    (h : pagesIndexed st.outline.pages) (ops : List Op) (n : Nat) :
    pagesIndexed (applyOps (ops.take n) st).outline.pages := by
  rw [pagesIndexed_iff] at h ⊢
  exact indexedFrom_applyOps _ _ h

/-- Witness for claim C2 at a concrete two-page state and a concrete
operation sequence. -/
theorem claim_c2_witness :
    pagesIndexed c2Start.outline.pages ∧
    pagesIndexed
      (applyOps ([Op.delete 0, Op.move 0 1, Op.insert 5 PageType.summary "C",
          Op.add PageType.content "D"].take 3) c2Start).outline.pages :=
  ⟨(pagesIndexed_iff _).mpr (by decide),
   claim_c2_renumbering_invariant c2Start ((pagesIndexed_iff _).mpr (by decide))
     [Op.delete 0, Op.move 0 1, Op.insert 5 PageType.summary "C",
      Op.add PageType.content "D"] 3⟩

/-- Counterexample to claim C3 as stated: `setOutline` is a mutating
outline operation, but it stores its `raw` argument verbatim, so after
`setOutline "X" [page "A"]` the raw text differs from the joined page
contents. -/
theorem claim_c3_counterexample :
    ¬ rawInv (setOutline "X"
        [{ index := 0, type := PageType.cover, content := "A" }] zeroState) := by
  unfold rawInv
  decide

/-- Claim C3 amended: provided `outline.raw` equals the joined page
contents before the call, it does so again immediately after updatePage,
deletePage, addPage, insertPage and movePage (also when movePage throws);
setOutline is excluded, since it stores its raw argument verbatim. -/
theorem claim_c3_raw_rederivable (st : GeneratorState) (h : rawInv st)
    (i a f t : Int) (c : String) (ty : PageType) :
    rawInv (updatePage i c st) ∧ rawInv (deletePage i st) ∧
    rawInv (addPage ty c st) ∧ rawInv (insertPage a ty c st) ∧
    rawInv ((movePage f t st).state) := by
  refine ⟨?_, rfl, rfl, rfl, ?_⟩
  · unfold updatePage
    split
    · exact rfl
    · exact h
  · dsimp only [movePage]
    split
    · exact rfl
    · show st.outline.raw = joinPages (renumberPrefixFrom 0 _ st.outline.pages)
      rw [joinPages_renumberPrefixFrom]
      exact h

/-- Witness for the amended claim C3 at the zero state. -/
theorem claim_c3_witness :
    rawInv zeroState ∧
    (rawInv (updatePage 0 "B" zeroState) ∧ rawInv (deletePage 0 zeroState) ∧
      rawInv (addPage PageType.content "B" zeroState) ∧
      rawInv (insertPage 0 PageType.content "B" zeroState) ∧
      rawInv ((movePage 0 1 zeroState).state)) :=
  ⟨rfl, claim_c3_raw_rederivable zeroState rfl 0 0 0 1 "B" PageType.content⟩

/-- Counterexample to claim C4 as stated: at the zero state the outline
already equals the arguments by value, yet `setOutline` is not a no-op
on the whole state — it still advances `stage` and `outlineStatus`. -/
theorem claim_c4_counterexample :
    zeroState.outline.raw = "" ∧ zeroState.outline.pages = [] ∧
    setOutline "" [] zeroState ≠ zeroState := by
  decide

/-- Claim C4 amended: `setOutline` with an already-equal outline leaves
the state unchanged only when additionally `stage` is already `outline`
and `outlineStatus` is already `done`; under those hypotheses it is the
identity. -/
theorem claim_c4_idempotent (st : GeneratorState) (raw : String)
    (pages : List Page) (h1 : st.outline.raw = raw)
    (h2 : st.outline.pages = pages) (h3 : st.stage = Stage.outline)
    (h4 : st.outlineStatus = GenStatus.done) :
    setOutline raw pages st = st := by
  rcases st with ⟨stg, top, ⟨r, p⟩, prog, imgs, tid, rid, uimg, cont, ost, lsa⟩
  subst h1
  subst h2
  subst h3
  subst h4
  rfl

/-- Witness for the amended claim C4 at a concrete outline-stage state. -/
theorem claim_c4_witness :
    (c4State.outline.raw = "A" ∧
      c4State.outline.pages =
        [{ index := 0, type := PageType.cover, content := "A" }] ∧
      c4State.stage = Stage.outline ∧ c4State.outlineStatus = GenStatus.done) ∧
    setOutline "A" [{ index := 0, type := PageType.cover, content := "A" }]
        c4State = c4State :=
  ⟨⟨rfl, rfl, rfl, rfl⟩, claim_c4_idempotent c4State _ _ rfl rfl rfl rfl⟩

/-- Claim C5: after `startGeneration()` the stage is `generating`, progress
is `(0, pages.length, generating)`, and the images list has exactly one
entry per page, in page order, carrying that page index with status
`generating`, empty url and no error. -/
theorem claim_c5_startGeneration (st : GeneratorState) :
    (startGeneration st).stage = Stage.generating ∧
    (startGeneration st).progress =
      { current := 0, total := st.outline.pages.length,
        status := GenStatus.generating } ∧
    (startGeneration st).images.length = st.outline.pages.length ∧
    ∀ j : Nat,
      (startGeneration st).images[j]? =
        (st.outline.pages[j]?).map (fun p =>
          { index := p.index, url := "", status := ImageStatus.generating,
            error := none, retryable := none, progress := none }) := by
  refine ⟨rfl, rfl, by simp [startGeneration], fun j => ?_⟩
  simp [startGeneration]

/-- Updating the first image matching an index commutes with looking that
index up, provided the update preserves the index field. -/
theorem find?_updateFirstImage (f : GeneratedImage → GeneratedImage) (i : Int)
    (hf : ∀ img, (f img).index = img.index) (l : List GeneratedImage) :
    (updateFirstImage f i l).find? (fun img => img.index == i) =
      (l.find? (fun img => img.index == i)).map f := by
  induction l with
  | nil => rfl
  | cons img imgs ih =>
      rw [updateFirstImage]
      by_cases h : (img.index == i) = true
      · have hf' : ((f img).index == i) = true := by rw [hf img]; exact h
        simp [h, hf', List.find?_cons]
      · have hb : (img.index == i) = false := by simpa using h
        simp [hb, List.find?_cons, ih]

/-- `updateFirstImage` preserves the list length. -/
theorem length_updateFirstImage (f : GeneratedImage → GeneratedImage) (i : Int)
    (l : List GeneratedImage) :
    (updateFirstImage f i l).length = l.length := by
  induction l with
  | nil => rfl
  | cons img imgs ih =>
      rw [updateFirstImage]
      split <;> simp [ih]

/-- Every position of `updateFirstImage f i l` holds either the original
image or its image under `f`. -/
theorem getElem?_updateFirstImage (f : GeneratedImage → GeneratedImage)
    (i : Int) (l : List GeneratedImage) (j : Nat) :
    (updateFirstImage f i l)[j]? = l[j]? ∨
      (updateFirstImage f i l)[j]? = (l[j]?).map f := by
  induction l generalizing j with
  | nil => left; rfl
  | cons img imgs ih =>
      rw [updateFirstImage]
      by_cases h : (img.index == i) = true
      · rw [if_pos h]
        cases j with
        | zero => right; simp
        | succ j => left; simp
      · rw [if_neg h]
        cases j with
        | zero => left; simp
        | succ j => simpa using ih j

/-- When no image carries the index, `updateFirstImage` is the identity. -/
theorem updateFirstImage_of_not_found (f : GeneratedImage → GeneratedImage)
    (i : Int) (l : List GeneratedImage) (h : ∀ img ∈ l, img.index ≠ i) :
    updateFirstImage f i l = l := by
  induction l with
  | nil => rfl
  | cons img imgs ih =>
      have h1 : ¬ (img.index == i) = true := by
        simpa using h img (List.mem_cons_self img imgs)
      rw [updateFirstImage, if_neg h1,
        ih (fun x hx => h x (List.mem_cons_of_mem _ hx))]

/-- Claim C6: `updateImage(index, newUrl)` turns the first image matching
the index into status `done` with url `newUrl ++ "?t=" ++ now` and no
error; it never touches `progress`, so repeated calls leave
`progress.current` exactly where it was (at most one increment can ever
come from an image transitioning into done, and not from this action). -/
theorem claim_c6_updateImage (st : GeneratorState) (now : Nat) (i : Int)
    (u : String) (now2 : Nat) (u2 : String) :
    (updateImage now i u st).images.find? (fun img => img.index == i) =
      (st.images.find? (fun img => img.index == i)).map
        (fun img =>
          { img with url := u ++ "?t=" ++ toString now,
                     status := ImageStatus.done, error := none }) ∧
    (updateImage now i u st).progress = st.progress ∧
    (updateImage now2 i u2 (updateImage now i u st)).progress.current =
      st.progress.current := by
  refine ⟨?_, rfl, rfl⟩
  exact
    find?_updateFirstImage
      (fun img =>
        { img with url := u ++ "?t=" ++ toString now,
                   status := ImageStatus.done, error := none })
      i (fun img => rfl) st.images

/-- Claim C7: `reset()` maps any state and any stored snapshot to exactly
the documented zero state, and the local snapshot slot afterwards holds
nothing. -/
theorem claim_c7_reset (st : GeneratorState) (slot : Option String) :
    reset st slot = (zeroState, none) := rfl

/-- Claim C8: when the local snapshot is absent, or present but fails to
parse (the `JSON.parse` throw is caught inside `loadState`, so nothing
escapes), the store initializes to exactly the documented default state. -/
theorem claim_c8_defaults (parse : String → Option PartialState)
    (stored : Option String)
    (h : stored = none ∨ ∃ s, stored = some s ∧ parse s = none) :
    initState parse stored = zeroState := by
  rcases h with h | ⟨s, hs, hp⟩
  · subst h
    rfl
  · subst hs
    have hl : loadState parse (some s) = {} := by
      simp only [loadState, hp]
      split <;> rfl
    unfold initState
    rw [hl]
    rfl

/-- Witness for claim C8 at an absent snapshot. -/
theorem claim_c8_witness :
    initState (fun _ => none) none = zeroState :=
  claim_c8_defaults (fun _ => none) none (Or.inl rfl)

/-- Counterexample to claim C9 as stated: with `recordId = some ""` (a set
value that is falsy to JavaScript) and `lastSavedAt` unset, the claim
requires `hasUnsavedChanges` to return true, but the source takes the
no-recordId branch and returns false on an otherwise empty state. -/
theorem claim_c9_counterexample :
    hasUnsavedChanges c9State = false ∧
    c9State.recordId ≠ none ∧ c9State.lastSavedAt = none := by
  refine ⟨rfl, by decide, rfl⟩

/-- Claim C9 amended: `hasUnsavedChanges()` returns true iff either
`recordId` is falsy (null or the empty string) and one of topic, pages,
images is non-empty, or `recordId` is a non-empty string and `lastSavedAt`
is falsy (null or the empty string); the query reads the state and mutates
nothing. -/
theorem claim_c9_hasUnsavedChanges (st : GeneratorState) :
    hasUnsavedChanges st = true ↔ unsavedChangesSpec st := by
  unfold hasUnsavedChanges unsavedChangesSpec strTruthy
  rcases hr : st.recordId with _ | r
  · simp only [Bool.not_false, if_true, Bool.or_eq_true, bne_iff_ne, ne_eq,
      decide_eq_true_eq, List.length_pos]
    simp
    tauto
  · by_cases hre : r = ""
    · subst hre
      simp only [bne_self_eq_false, Bool.not_false, if_true, Bool.or_eq_true,
        bne_iff_ne, ne_eq, decide_eq_true_eq, List.length_pos]
      simp
      tauto
    · have hrt : (r != "") = true := by simpa using hre
      rcases hl : st.lastSavedAt with _ | l
      · simp [hrt, hre]
      · by_cases hle : l = ""
        · subst hle
          simp [hrt, hre]
        · have hlt : (l != "") = true := by simpa using hle
          simp [hrt, hlt, hre, hle]

/-- Claim C10: `setImageRetrying(index)` only rewrites the status of the
first image carrying the index to `retrying` — regardless of its current
status — leaving its url, error, retryable and progress fields, every
other image, and every other component of the workflow state unchanged;
when no image carries the index it is a no-op. -/
theorem claim_c10_setImageRetrying (st : GeneratorState) (i : Int) :
    (setImageRetrying i st).stage = st.stage ∧
    (setImageRetrying i st).topic = st.topic ∧
    (setImageRetrying i st).outline = st.outline ∧
    (setImageRetrying i st).progress = st.progress ∧
    (setImageRetrying i st).taskId = st.taskId ∧
    (setImageRetrying i st).recordId = st.recordId ∧
    (setImageRetrying i st).userImages = st.userImages ∧
    (setImageRetrying i st).content = st.content ∧
    (setImageRetrying i st).outlineStatus = st.outlineStatus ∧
    (setImageRetrying i st).lastSavedAt = st.lastSavedAt ∧
    (setImageRetrying i st).images.find? (fun img => img.index == i) =
      (st.images.find? (fun img => img.index == i)).map
        (fun img => { img with status := ImageStatus.retrying }) ∧
    (∀ j : Nat,
      (setImageRetrying i st).images[j]? = st.images[j]? ∨
        (setImageRetrying i st).images[j]? =
          (st.images[j]?).map
            (fun img => { img with status := ImageStatus.retrying })) ∧
    ((∀ img ∈ st.images, img.index ≠ i) → setImageRetrying i st = st) := by
  refine ⟨rfl, rfl, rfl, rfl, rfl, rfl, rfl, rfl, rfl, rfl, ?_, ?_, ?_⟩
  · exact
      find?_updateFirstImage (fun img => { img with status := ImageStatus.retrying })
        i (fun img => rfl) st.images
  · exact fun j =>
      getElem?_updateFirstImage (fun img => { img with status := ImageStatus.retrying })
        i st.images j
  · intro h
    show ({ st with
        images :=
          updateFirstImage (fun img => { img with status := ImageStatus.retrying })
            i st.images } : GeneratorState) = st
    rw [updateFirstImage_of_not_found _ _ _ h]

/-- Witness for claim C10: index 5 matches no image of the concrete state,
so the action is a no-op there. -/
theorem claim_c10_witness :
    (∀ img ∈ c10State.images, img.index ≠ (5 : Int)) ∧
      setImageRetrying 5 c10State = c10State :=
  ⟨by decide,
   (claim_c10_setImageRetrying c10State 5).2.2.2.2.2.2.2.2.2.2.2.2 (by decide)⟩

end RedInk
